import Mathlib

/-!
Verification of the CloudNativePG MCP server (src/index.ts) resource-mutation
and document-compilation logic.

The server manipulates JSON documents (Kubernetes custom resources) fetched
from and submitted to an API server.  We embed JSON values as the inductive
type `Val`, with JavaScript object semantics: property lookup returns
`undefined` for absent keys, property access on `null`/`undefined` throws
(modelled as `Option.none`), and strict-mode property assignment on a
non-object throws.  Each tool handler's pure mutation/compilation core is
translated directly from the TypeScript source.
-/

namespace Cnpg

/-- A JavaScript value as manipulated by the server: JSON values plus
`undefined`.  Objects are association lists of string keys (JS objects have
unique keys; operations use first-match lookup). -/
inductive Val where
  | vundefined : Val
  | vnull : Val
  | vbool : Bool → Val
  | vnum : Int → Val
  | vstr : String → Val
  | varr : List Val → Val
  | vobj : List (String × Val) → Val
deriving Repr

/-- First-match lookup of a key in an object's field list. -/
def lookupField : List (String × Val) → String → Option Val
  | [], _ => none
  | (k, v) :: rest, key => if k = key then some v else lookupField rest key

/-- JS property assignment on an object's field list: overwrite the first
occurrence in place (preserving position, as JS does), else append. -/
def setField : List (String × Val) → String → Val → List (String × Val)
  | [], key, v => [(key, v)]
  | (k, w) :: rest, key, v =>
      if k = key then (key, v) :: rest else (k, w) :: setField rest key v

/-- JS `delete obj[key]`: remove the key (JS objects have unique keys, so
removing every occurrence agrees with deleting the one binding). -/
def removeField : List (String × Val) → String → List (String × Val)
  | [], _ => []
  | (k, v) :: rest, key =>
      if k = key then removeField rest key else (k, v) :: removeField rest key

/-- JS truthiness. -/
def truthy : Val → Bool
  | .vundefined => false
  | .vnull => false
  | .vbool b => b
  | .vnum n => decide (n ≠ 0)
  | .vstr s => decide (s ≠ "")
  | .varr _ => true
  | .vobj _ => true

/-- JS property read `v[k]`: throws (`none`) on `null`/`undefined`, returns
the binding on objects (or `undefined` when absent), and `undefined` on other
values. -/
def jsGet : Val → String → Option Val
  | .vundefined, _ => none
  | .vnull, _ => none
  | .vobj fs, k => some ((lookupField fs k).getD .vundefined)
  | _, _ => some .vundefined

/-- Strict-mode JS property write `target[k] = v`: succeeds only when the
target is an object; primitives, `null` and `undefined` throw. -/
def jsSetOn : Val → String → Val → Option Val
  | .vobj fs, k, v => some (.vobj (setField fs k v))
  | _, _, _ => none

/-- Strict-mode JS `delete target[k]` as used by the server (only ever
reached on an object). -/
def jsDeleteOn : Val → String → Option Val
  | .vobj fs, k => some (.vobj (removeField fs k))
  | _, _ => none

/-- Pure field projection: the binding of `k` when `v` is an object holding
`k`, `none` otherwise (distinguishes an absent key from an `undefined`
value). -/
def Val.getField : Val → String → Option Val
  | .vobj fs, k => lookupField fs k
  | _, _ => none

/-- Projection along a path of keys. -/
def pathGet : Val → List String → Option Val
  | v, [] => some v
  | v, k :: ks =>
      match Val.getField v k with
      | some w => pathGet w ks
      | none => none

/-- JS `target.k1.k2 = v` (two-level assignment through one property read). -/
def setPath2 (root : Val) (k1 k2 : String) (v : Val) : Option Val :=
  match jsGet root k1 with
  | none => none
  | some child =>
      match jsSetOn child k2 v with
      | none => none
      | some child' => jsSetOn root k1 child'

/-- JS `target.k1.k2.k3 = v` (three-level assignment). -/
def setPath3 (root : Val) (k1 k2 k3 : String) (v : Val) : Option Val :=
  match jsGet root k1 with
  | none => none
  | some c1 =>
      match jsGet c1 k2 with
      | none => none
      | some c2 =>
          match jsSetOn c2 k3 v with
          | none => none
          | some c2' =>
              match jsSetOn c1 k2 c2' with
              | none => none
              | some c1' => jsSetOn root k1 c1'

/-- `Object.assign(target, src)`: write each binding of `src`, in order,
onto `target`. -/
def assignFields : List (String × Val) → List (String × Val) → List (String × Val)
  | t, [] => t
  | t, (k, v) :: rest => assignFields (setField t k v) rest

/-- Chained JS property reads `v.k1.k2...`, any step of which may throw. -/
def jsGetPath : Val → List String → Option Val
  | v, [] => some v
  | v, k :: ks =>
      match jsGet v k with
      | none => none
      | some w => jsGetPath w ks

/-- JS `target.k1.k2.k3.k4 = v` (four-level assignment). -/
def setPath4 (root : Val) (k1 k2 k3 k4 : String) (v : Val) : Option Val :=
  match jsGet root k1 with
  | none => none
  | some c1 =>
      match jsGet c1 k2 with
      | none => none
      | some c2 =>
          match jsGet c2 k3 with
          | none => none
          | some c3 =>
              match jsSetOn c3 k4 v with
              | none => none
              | some c3' =>
                  match jsSetOn c2 k3 c3' with
                  | none => none
                  | some c2' =>
                      match jsSetOn c1 k2 c2' with
                      | none => none
                      | some c1' => jsSetOn root k1 c1'

theorem lookupField_setField_self (fs : List (String × Val)) (k : String) (v : Val) :
    lookupField (setField fs k v) k = some v := by
  induction fs with
  | nil => simp [setField, lookupField]
  | cons hd tl ih =>
      by_cases h : hd.fst = k
      · simp [setField, h, lookupField]
      · simp [setField, h, lookupField, ih]

theorem lookupField_setField_ne (fs : List (String × Val)) (k k' : String) (v : Val)
    (h : k' ≠ k) : lookupField (setField fs k v) k' = lookupField fs k' := by
  induction fs with
  | nil => simp [setField, lookupField, Ne.symm h]
  | cons hd tl ih =>
      by_cases hk : hd.fst = k
      · simp [setField, hk, lookupField, Ne.symm h, h]
      · by_cases hk' : hd.fst = k'
        · simp [setField, hk, lookupField, hk', h]
        · simp [setField, hk, lookupField, hk', ih]

theorem setField_setField (fs : List (String × Val)) (k : String) (v w : Val) :
    setField (setField fs k v) k w = setField fs k w := by
  induction fs with
  | nil => simp [setField]
  | cons hd tl ih =>
      by_cases h : hd.fst = k
      · simp [setField, h]
      · simp [setField, h, ih]

theorem lookupField_removeField_self (fs : List (String × Val)) (k : String) :
    lookupField (removeField fs k) k = none := by
  induction fs with
  | nil => simp [removeField, lookupField]
  | cons hd tl ih =>
      by_cases h : hd.fst = k
      · simpa [removeField, h] using ih
      · simp [removeField, h, lookupField, ih]

theorem lookupField_removeField_ne (fs : List (String × Val)) (k k' : String)
    (h : k' ≠ k) : lookupField (removeField fs k) k' = lookupField fs k' := by
  induction fs with
  | nil => simp [removeField, lookupField]
  | cons hd tl ih =>
      by_cases hk : hd.fst = k
      · have hne : hd.fst ≠ k' := by rw [hk]; exact Ne.symm h
        simp [removeField, hk, lookupField, hne, ih, Ne.symm h]
      · by_cases hk' : hd.fst = k'
        · simp [removeField, hk, lookupField, hk', h]
        · simp [removeField, hk, lookupField, hk', ih]

/-- `${v}` template-literal rendering of the argument values interpolated
into the server's human-readable messages. -/
def jsDisplay : Val → String
  | .vundefined => "undefined"
  | .vnull => "null"
  | .vbool b => if b then "true" else "false"
  | .vnum n => toString n
  | .vstr s => s
  | .varr _ => ""
  | .vobj _ => "[object Object]"

def CNPG_GROUP : String := "postgresql.cnpg.io"

def CNPG_VERSION : String := "v1"

def CLUSTER_PLURAL : String := "clusters"

def BACKUP_PLURAL : String := "backups"

/-- One item of the `content` array of a tool response. The source field
`type` is rendered as `ctype`. -/
structure ContentItem where
  ctype : String
  text : String
deriving Repr, DecidableEq

/-- The envelope every tool handler returns: a bare `content` list.  Note the
structure has no `ok`/`isError` flag and no error-kind field of any sort —
success and failure differ only in the text. -/
structure ToolResult where
  content : List ContentItem
deriving Repr, DecidableEq

/-- Failures the Kubernetes client can raise on a remote call, tagged by
kind; the server only ever reads `.message`. -/
inductive KubeError where
  | conflict (msg : String)
  | transport (msg : String)
  | notFound (msg : String)
deriving Repr, DecidableEq

def KubeError.message : KubeError → String
  | .conflict m => m
  | .transport m => m
  | .notFound m => m

/-- A remote call issued through the CustomObjectsApi adapter. -/
inductive AdapterCall where
  | getObj (plural : String) (ns name : Val)
  | replaceObj (plural : String) (ns name : Val) (body : Val)
  | createObj (plural : String) (ns : Val) (body : Val)
deriving Repr

/-- The message text of the TypeError raised by a strict-mode property write
through a missing or primitive intermediate object; the exact wording is
fixed by the JS runtime, not by this repository, so it is kept abstract. -/
def typeErrorMessage : String := "TypeError"

/-- `createCluster` (src/index.ts:1702): the compiled Cluster document.
Defaults `instances = 3`, `storageSize = "10Gi"` are applied on
destructuring; `postgresVersion` is destructured with default "15" but never
used; `storageClass` is spread into `storage` only when truthy. -/
def createClusterSpec (name namespace_ : String) (instances : Option Int)
    (storageSize postgresVersion storageClass : Option String) : Val :=
  Val.vobj
    [("apiVersion", .vstr (CNPG_GROUP ++ "/" ++ CNPG_VERSION)),
     ("kind", .vstr "Cluster"),
     ("metadata", .vobj [("name", .vstr name), ("namespace", .vstr namespace_)]),
     ("spec", .vobj
       [("instances", .vnum (instances.getD 3)),
        ("postgresql", .vobj
          [("parameters", .vobj
            [("max_connections", .vstr "100"),
             ("shared_buffers", .vstr "256MB"),
             ("effective_cache_size", .vstr "1GB")])]),
        ("bootstrap", .vobj
          [("initdb", .vobj
            [("database", .vstr "app"),
             ("owner", .vstr "app"),
             ("secret", .vobj [("name", .vstr (name ++ "-app-user"))])])]),
        ("storage", .vobj
          (("size", Val.vstr (storageSize.getD "10Gi")) ::
            (match storageClass with
             | some sc => if sc = "" then [] else [("storageClass", Val.vstr sc)]
             | none => []))),
        ("monitoring", .vobj [("enabled", .vbool true)])])]

/-- `createBackup` (src/index.ts:1829): the backup name,
`backupName || clusterName + "-backup-" + Date.now()`.  An explicitly
supplied empty string is falsy in JS, hence also auto-generated.  `nowMs` is
the millisecond value returned by `Date.now()`. -/
def backupNameFor (clusterName : String) (backupName : Option String) (nowMs : Nat) : String :=
  match backupName with
  | some n => if n = "" then clusterName ++ "-backup-" ++ toString nowMs else n
  | none => clusterName ++ "-backup-" ++ toString nowMs

/-- `createBackup` (src/index.ts:1829): the compiled Backup document. -/
def createBackupSpec (clusterName namespace_ : String) (backupName : Option String)
    (nowMs : Nat) : Val :=
  Val.vobj
    [("apiVersion", .vstr (CNPG_GROUP ++ "/" ++ CNPG_VERSION)),
     ("kind", .vstr "Backup"),
     ("metadata", .vobj
       [("name", .vstr (backupNameFor clusterName backupName nowMs)),
        ("namespace", .vstr namespace_)]),
     ("spec", .vobj [("cluster", .vobj [("name", .vstr clusterName)])])]

/-- `createPooler` (src/index.ts:2597): the compiled Pooler document.
`args.instances || 1`, `args.type || "rw"`, `args.poolMode || "session"`,
`args.pgbouncerConfig || {}` all use JS truthiness for their defaults. -/
def createPoolerSpec (poolerName namespace_ clusterName : String)
    (instances : Option Int) (type_ poolMode : Option String)
    (pgbouncerConfig : Option (List (String × Val))) : Val :=
  Val.vobj
    [("apiVersion", .vstr (CNPG_GROUP ++ "/" ++ CNPG_VERSION)),
     ("kind", .vstr "Pooler"),
     ("metadata", .vobj [("name", .vstr poolerName), ("namespace", .vstr namespace_)]),
     ("spec", .vobj
       [("cluster", .vobj [("name", .vstr clusterName)]),
        ("instances", .vnum (match instances with
          | some n => if n = 0 then 1 else n
          | none => 1)),
        ("type", .vstr (match type_ with
          | some t => if t = "" then "rw" else t
          | none => "rw")),
        ("pgbouncer", .vobj
          [("poolMode", .vstr (match poolMode with
             | some m => if m = "" then "session" else m
             | none => "session")),
           ("parameters", match pgbouncerConfig with
             | some c => Val.vobj c
             | none => Val.vobj [])])])]

/-- `createScheduledBackup` (src/index.ts:2144): the compiled ScheduledBackup
document; `backupRetentionPolicy` defaults to "30d" on destructuring and is
then spread only when truthy. -/
def createScheduledBackupSpec (name namespace_ clusterName schedule : String)
    (backupRetentionPolicy : Option String) (suspend : Option Bool) : Val :=
  Val.vobj
    [("apiVersion", .vstr (CNPG_GROUP ++ "/" ++ CNPG_VERSION)),
     ("kind", .vstr "ScheduledBackup"),
     ("metadata", .vobj [("name", .vstr name), ("namespace", .vstr namespace_)]),
     ("spec", .vobj
       (("schedule", Val.vstr schedule) ::
        ("suspend", Val.vbool (suspend.getD false)) ::
        ("backupOwnerReference", Val.vstr "self") ::
        ("cluster", Val.vobj [("name", Val.vstr clusterName)]) ::
        (match backupRetentionPolicy.getD "30d" with
         | p => if p = "" then [] else [("retentionPolicy", Val.vstr p)])))]

/-- `scaleCluster` (src/index.ts:1792) mutation step:
`cluster.spec.instances = instances`. -/
def scaleClusterPatch (cluster : Val) (instances : Val) : Option Val :=
  setPath2 cluster "spec" "instances" instances

/-- `pauseCluster` (src/index.ts:2390) mutation step: create
`metadata.annotations` when falsy, then set the `cnpg.io/hibernation`
annotation to "on". -/
def pauseClusterPatch (cluster : Val) : Option Val :=
  match jsGet cluster "metadata" with
  | none => none
  | some meta =>
      match jsGet meta "annotations" with
      | none => none
      | some ann =>
          if truthy ann then
            match jsSetOn ann "cnpg.io/hibernation" (.vstr "on") with
            | none => none
            | some ann' =>
                match jsSetOn meta "annotations" ann' with
                | none => none
                | some meta' => jsSetOn cluster "metadata" meta'
          else
            match jsSetOn meta "annotations" (.vobj []) with
            | none => none
            | some meta' =>
                match jsSetOn (Val.vobj []) "cnpg.io/hibernation" (.vstr "on") with
                | none => none
                | some ann' =>
                    match jsSetOn meta' "annotations" ann' with
                    | none => none
                    | some meta'' => jsSetOn cluster "metadata" meta''

/-- `resumeCluster` (src/index.ts:2432) mutation step: delete the
`cnpg.io/hibernation` annotation only when
`cluster.metadata.annotations && cluster.metadata.annotations[key]` is
truthy; otherwise the document is left untouched. -/
def resumeClusterPatch (cluster : Val) : Option Val :=
  match jsGet cluster "metadata" with
  | none => none
  | some meta =>
      match jsGet meta "annotations" with
      | none => none
      | some ann =>
          if truthy ann then
            match jsGet ann "cnpg.io/hibernation" with
            | none => none
            | some hib =>
                if truthy hib then
                  match jsDeleteOn ann "cnpg.io/hibernation" with
                  | none => none
                  | some ann' =>
                      match jsSetOn meta "annotations" ann' with
                      | none => none
                      | some meta' => jsSetOn cluster "metadata" meta'
                else some cluster
          else some cluster

/-- `patchClusterConfig` (src/index.ts:2473) mutation step: when
`postgresqlConfig` is supplied, create `spec.postgresql` and
`spec.postgresql.parameters` when falsy, then
`Object.assign(parameters, postgresqlConfig)`; when `resources` is truthy,
`cluster.spec.resources = resources`. -/
def patchClusterConfigPatch (cluster : Val)
    (postgresqlConfig : Option (List (String × Val))) (resources : Option Val) :
    Option Val :=
  let afterConfig : Option Val :=
    match postgresqlConfig with
    | none => some cluster
    | some cfg =>
        match jsGetPath cluster ["spec", "postgresql"] with
        | none => none
        | some pg =>
            match (if truthy pg then some cluster
                   else setPath2 cluster "spec" "postgresql" (.vobj [])) with
            | none => none
            | some c1 =>
                match jsGetPath c1 ["spec", "postgresql", "parameters"] with
                | none => none
                | some par =>
                    match (if truthy par then some c1
                           else setPath3 c1 "spec" "postgresql" "parameters" (.vobj [])) with
                    | none => none
                    | some c2 =>
                        match jsGetPath c2 ["spec", "postgresql", "parameters"] with
                        | some (.vobj pfs) =>
                            setPath3 c2 "spec" "postgresql" "parameters"
                              (.vobj (assignFields pfs cfg))
                        | _ => none
  match afterConfig with
  | none => none
  | some c =>
      match resources with
      | none => some c
      | some r => if truthy r then setPath2 c "spec" "resources" r else some c

/-- The object literal
`{ name: args.tablespaceName, storage: { size: args.size, storageClass: args.storageClass } }`
built by `manageTablespaces`; note `storageClass` is present (as `undefined`)
even when the argument was not supplied. -/
def tablespaceObj (tablespaceName size storageClass : Val) : Val :=
  .vobj [("name", tablespaceName),
         ("storage", .vobj [("size", size), ("storageClass", storageClass)])]

/-- `manageTablespaces` (src/index.ts:2778) mutation step: create
`spec.tablespaces` as `[]` when falsy, build the tablespace object, and
`push` it. -/
def manageTablespacesPatch (cluster : Val) (tablespaceName size storageClass : Val) :
    Option Val :=
  match jsGetPath cluster ["spec", "tablespaces"] with
  | none => none
  | some ts =>
      match (if truthy ts then some cluster
             else setPath2 cluster "spec" "tablespaces" (.varr [])) with
      | none => none
      | some c1 =>
          match jsGetPath c1 ["spec", "tablespaces"] with
          | some (.varr xs) =>
              setPath2 c1 "spec" "tablespaces"
                (.varr (xs ++ [tablespaceObj tablespaceName size storageClass]))
          | _ => none

/-- `createDatabaseDeclarative` (src/index.ts:2829): the generated SQL
statement, `CREATE DATABASE "name"` plus optional owner/encoding clauses
(appended only when the argument is truthy). -/
def createDbSql (databaseName : String) (owner encoding : Option String) : String :=
  let base := "CREATE DATABASE \"" ++ databaseName ++ "\""
  let withOwner :=
    match owner with
    | some o => if o = "" then base else base ++ " OWNER \"" ++ o ++ "\""
    | none => base
  match encoding with
  | some e => if e = "" then withOwner
      else withOwner ++ " ENCODING \x27" ++ e ++ "\x27"
  | none => withOwner

/-- `createDatabaseDeclarative` (src/index.ts:2829) mutation step: create
`spec.bootstrap`, `spec.bootstrap.initdb` and
`spec.bootstrap.initdb.postInitApplicationSQL` when falsy, then `push` the
generated SQL statement. -/
def createDatabaseDeclarativePatch (cluster : Val)
    (databaseName : String) (owner encoding : Option String) : Option Val :=
  match jsGetPath cluster ["spec", "bootstrap"] with
  | none => none
  | some bs =>
      match (if truthy bs then some cluster
             else setPath2 cluster "spec" "bootstrap" (.vobj [])) with
      | none => none
      | some c1 =>
          match jsGetPath c1 ["spec", "bootstrap", "initdb"] with
          | none => none
          | some idb =>
              match (if truthy idb then some c1
                     else setPath3 c1 "spec" "bootstrap" "initdb" (.vobj [])) with
              | none => none
              | some c2 =>
                  match jsGetPath c2
                      ["spec", "bootstrap", "initdb", "postInitApplicationSQL"] with
                  | none => none
                  | some sqlArr =>
                      match (if truthy sqlArr then some c2
                             else setPath4 c2 "spec" "bootstrap" "initdb"
                               "postInitApplicationSQL" (.varr [])) with
                      | none => none
                      | some c3 =>
                          match jsGetPath c3
                              ["spec", "bootstrap", "initdb", "postInitApplicationSQL"] with
                          | some (.varr xs) =>
                              setPath4 c3 "spec" "bootstrap" "initdb" "postInitApplicationSQL"
                                (.varr (xs ++ [.vstr (createDbSql databaseName owner encoding)]))
                          | _ => none

/-- `scaleCluster` (src/index.ts:1792) as a trace: the remote calls issued
and either the message of the thrown `Error` or the success envelope.
`fetched` is the adapter's response to the initial get and `replaceOutcome`
its response to the replace; every adapter failure is rethrown as
`Failed to scale cluster: <message>`. -/
def scaleClusterRun (name namespace_ : Val) (instances : Val)
    (fetched : Except KubeError Val) (replaceOutcome : Except KubeError Unit) :
    List AdapterCall × Except String ToolResult :=
  let getCall := AdapterCall.getObj CLUSTER_PLURAL namespace_ name
  match fetched with
  | .error e => ([getCall], .error ("Failed to scale cluster: " ++ e.message))
  | .ok cluster =>
      match scaleClusterPatch cluster instances with
      | none => ([getCall], .error ("Failed to scale cluster: " ++ typeErrorMessage))
      | some body =>
          let calls := [getCall, AdapterCall.replaceObj CLUSTER_PLURAL namespace_ name body]
          match replaceOutcome with
          | .error e => (calls, .error ("Failed to scale cluster: " ++ e.message))
          | .ok _ =>
              (calls, .ok ⟨[⟨"text",
                "Successfully scaled cluster \x27" ++ jsDisplay name ++ "\x27 to " ++
                  jsDisplay instances ++ " instances."⟩]⟩)

/-- The catch block of the CallTool dispatcher (src/index.ts:1605): any
thrown error becomes a plain text envelope; nothing else distinguishes it
from a success. -/
def callToolCatch (toolName : String) (r : Except String ToolResult) : ToolResult :=
  match r with
  | .ok t => t
  | .error msg => ⟨[⟨"text", "Error executing " ++ toolName ++ ": " ++ msg⟩]⟩

/-- The CallTool dispatcher (src/index.ts:1497) specialised to
`scale_cluster`: the only check before dispatch is
`if (!args) throw new Error("Missing arguments")`; otherwise `args.name`,
`args.namespace` and `args.instances` are read off the bag (unknown keys are
ignored and nothing is validated) and the handler runs immediately. -/
def dispatchScaleCluster (args : Option (List (String × Val)))
    (fetched : Except KubeError Val) (replaceOutcome : Except KubeError Unit) :
    List AdapterCall × ToolResult :=
  match args with
  | none => ([], callToolCatch "scale_cluster" (.error "Missing arguments"))
  | some bag =>
      let nameV := (lookupField bag "name").getD .vundefined
      let nsV := (lookupField bag "namespace").getD .vundefined
      let instV := (lookupField bag "instances").getD .vundefined
      let r := scaleClusterRun nameV nsV instV fetched replaceOutcome
      (r.fst, callToolCatch "scale_cluster" r.snd)

theorem setPath2_obj (fs sf : List (String × Val)) (k1 k2 : String) (v : Val)
    (h : lookupField fs k1 = some (.vobj sf)) :
    setPath2 (.vobj fs) k1 k2 v =
      some (.vobj (setField fs k1 (.vobj (setField sf k2 v)))) := by
  simp [setPath2, jsGet, jsSetOn, h]

theorem setPath3_obj (fs c1f c2f : List (String × Val)) (k1 k2 k3 : String) (v : Val)
    (h1 : lookupField fs k1 = some (.vobj c1f))
    (h2 : lookupField c1f k2 = some (.vobj c2f)) :
    setPath3 (.vobj fs) k1 k2 k3 v =
      some (.vobj (setField fs k1 (.vobj (setField c1f k2
        (.vobj (setField c2f k3 v)))))) := by
  simp [setPath3, jsGet, jsSetOn, h1, h2]

theorem lookupField_eq_none_of_not_mem (fs : List (String × Val)) (k : String)
    (h : k ∉ fs.map Prod.fst) : lookupField fs k = none := by
  induction fs with
  | nil => simp [lookupField]
  | cons hd tl ih =>
      simp only [List.map_cons, List.mem_cons] at h
      push_neg at h
      simp [lookupField, Ne.symm h.1, ih h.2]

theorem lookupField_assignFields_of_none (src t : List (String × Val)) (k : String)
    (h : lookupField src k = none) :
    lookupField (assignFields t src) k = lookupField t k := by
  induction src generalizing t with
  | nil => simp [assignFields]
  | cons hd tl ih =>
      obtain ⟨k0, v0⟩ := hd
      simp only [lookupField] at h
      by_cases hk : k0 = k
      · simp [hk] at h
      · simp only [hk, if_false] at h
        simp only [assignFields]
        rw [ih _ h, lookupField_setField_ne _ _ _ _ (fun he => hk he.symm)]

theorem lookupField_assignFields_of_some (src t : List (String × Val)) (k : String) (v : Val)
    (hn : (src.map Prod.fst).Nodup) (h : lookupField src k = some v) :
    lookupField (assignFields t src) k = some v := by
  induction src generalizing t with
  | nil => simp [lookupField] at h
  | cons hd tl ih =>
      obtain ⟨k0, v0⟩ := hd
      simp only [List.map_cons, List.nodup_cons] at hn
      simp only [lookupField] at h
      by_cases hk : k0 = k
      · simp only [hk, if_true] at h
        subst hk
        have hv : v0 = v := by injection h
        subst hv
        have htl : lookupField tl k0 = none :=
          lookupField_eq_none_of_not_mem _ _ hn.1
        simp only [assignFields]
        rw [lookupField_assignFields_of_none _ _ _ htl, lookupField_setField_self]
      · simp only [hk, if_false] at h
        simp only [assignFields]
        exact ih _ hn.2 h

/-- `restoreCluster` (src/index.ts:1975): the compiled Cluster document for a
restore; identical to `createClusterSpec` except that bootstrap recovers from
the named backup. -/
def restoreClusterSpec (newClusterName namespace_ backupName : String)
    (instances : Option Int) (storageSize storageClass : Option String) : Val :=
  Val.vobj
    [("apiVersion", .vstr (CNPG_GROUP ++ "/" ++ CNPG_VERSION)),
     ("kind", .vstr "Cluster"),
     ("metadata", .vobj [("name", .vstr newClusterName), ("namespace", .vstr namespace_)]),
     ("spec", .vobj
       [("instances", .vnum (instances.getD 3)),
        ("postgresql", .vobj
          [("parameters", .vobj
            [("max_connections", .vstr "100"),
             ("shared_buffers", .vstr "256MB"),
             ("effective_cache_size", .vstr "1GB")])]),
        ("bootstrap", .vobj
          [("recovery", .vobj [("backup", .vobj [("name", .vstr backupName)])])]),
        ("storage", .vobj
          (("size", Val.vstr (storageSize.getD "10Gi")) ::
            (match storageClass with
             | some sc => if sc = "" then [] else [("storageClass", Val.vstr sc)]
             | none => []))),
        ("monitoring", .vobj [("enabled", .vbool true)])])]

/-- The pause-then-resume round trip on one fetched document (no external
mutation between the two RMW cycles). -/
def pauseThenResume (d : Val) : Option Val :=
  (pauseClusterPatch d).bind resumeClusterPatch

/-- Checks the final state the spec cares about: `metadata.annotations` is
either absent or an object without the `cnpg.io/hibernation` key. -/
def hibKeyAbsent (d : Val) : Bool :=
  match pathGet d ["metadata", "annotations"] with
  | some (.vobj afs) => (lookupField afs "cnpg.io/hibernation").isNone
  | some _ => false
  | none => true

/-- A fetched cluster document whose metadata carries no annotations map. -/
def noAnnCluster : Val :=
  .vobj [("apiVersion", .vstr "postgresql.cnpg.io/v1"),
         ("kind", .vstr "Cluster"),
         ("metadata", .vobj [("name", .vstr "prod"), ("namespace", .vstr "db")]),
         ("spec", .vobj [("instances", .vnum 3)])]

/-- C3: the claim states that resume_cluster applied to a document lacking
`metadata.annotations` yields a document in which `metadata.annotations` is
present and empty.  In fact the guard
`if (cluster.metadata.annotations && ...)` skips the whole mutation, so the
document is returned unchanged and `metadata.annotations` is still absent —
no empty map is created. -/
theorem C3_counterexample :
    resumeClusterPatch noAnnCluster = some noAnnCluster ∧
    pathGet noAnnCluster ["metadata", "annotations"] = none := ⟨rfl, rfl⟩

/-- C3 amended: resume_cluster on a document lacking `metadata.annotations`
succeeds as a no-op — the document is returned unchanged, with
`metadata.annotations` still absent (not created as an empty map). -/
theorem C3_resume_absent_map_noop (fs mf : List (String × Val))
    (hm : lookupField fs "metadata" = some (.vobj mf))
    (ha : lookupField mf "annotations" = none) :
    resumeClusterPatch (.vobj fs) = some (.vobj fs) ∧
    pathGet (.vobj fs) ["metadata", "annotations"] = none := by
  constructor
  · simp [resumeClusterPatch, jsGet, hm, ha, truthy]
  · simp [pathGet, Val.getField, hm, ha]

/-- C3 witness: the amended theorem applied to the concrete document. -/
theorem C3_witness :
    resumeClusterPatch noAnnCluster = some noAnnCluster ∧
    pathGet noAnnCluster ["metadata", "annotations"] = none :=
  C3_resume_absent_map_noop _ _ rfl rfl

/-- C4: the claim states that two successive `create_backup` calls without a
`backupName`, even within the same millisecond-resolution clock tick, yield
distinct names.  The generated name is
`clusterName + "-backup-" + Date.now()`, a pure function of the millisecond
clock value: two calls observing the same tick produce the identical name
(and hence Backup documents that collide on `metadata.name`). -/
theorem C4_counterexample :
    backupNameFor "prod" none 1700000000000 = backupNameFor "prod" none 1700000000000 ∧
    backupNameFor "prod" none 1700000000000 = "prod-backup-1700000000000" ∧
    backupNameFor "prod" none 1700000000000 ≠ backupNameFor "prod" none 1700000000001 ∧
    createBackupSpec "prod" "db" none 1700000000000
      = createBackupSpec "prod" "db" none 1700000000000 :=
  ⟨rfl, rfl, by decide, rfl⟩

/-- C4 amended: the generated name does start with `<clusterName>-backup-`,
and two generated names can only coincide when the millisecond clock values
render identically — so calls on distinct ticks get distinct names, while
two calls within the same millisecond tick collide. -/
theorem C4_backup_name_from_ms_clock (t1 t2 : Nat)
    (h : backupNameFor "prod" none t1 = backupNameFor "prod" none t2) :
    toString t1 = toString t2 ∧
    backupNameFor "prod" none t1 = "prod-backup-" ++ toString t1 := by
  refine ⟨?_, rfl⟩
  have h' : "prod-backup-" ++ toString t1 = "prod-backup-" ++ toString t2 := h
  have hd := congrArg String.data h'
  rw [String.data_append, String.data_append] at hd
  exact String.ext (List.append_cancel_left hd)

/-- C4 witness: the amended theorem applied at a concrete tick. -/
theorem C4_witness :
    toString 1700000000000 = toString 1700000000000 ∧
    backupNameFor "prod" none 1700000000000 = "prod-backup-" ++ toString 1700000000000 :=
  C4_backup_name_from_ms_clock 1700000000000 1700000000000 rfl

/-- A fetched cluster document that carries an operator-written status. -/
def statusCluster : Val :=
  .vobj [("metadata", .vobj [("name", .vstr "prod")]),
         ("spec", .vobj [("instances", .vnum 3)]),
         ("status", .vobj [("phase", .vstr "Cluster in healthy state"),
                           ("readyInstances", .vnum 3)])]

/-- C5: the claim states that update-style operations strip `status` before
the replace call.  `scaleCluster` mutates the fetched document in place and
submits it whole: the replace body still contains the fetched `status`
verbatim. -/
theorem C5_counterexample :
    (scaleClusterPatch statusCluster (.vnum 5)).bind (fun b => Val.getField b "status")
      = some (.vobj [("phase", .vstr "Cluster in healthy state"),
                     ("readyInstances", .vnum 3)]) := rfl

/-- C5 amended: update-style operations (scale_cluster, pause_cluster) send
the fetched `status` back unmodified in the replace body; it is round-tripped,
never stripped. -/
theorem C5_status_roundtripped (fs sf mf : List (String × Val)) (s instances : Val)
    (hspec : lookupField fs "spec" = some (.vobj sf))
    (hmeta : lookupField fs "metadata" = some (.vobj mf))
    (hann : lookupField mf "annotations" = none)
    (hstatus : lookupField fs "status" = some s) :
    (scaleClusterPatch (.vobj fs) instances).bind (fun b => Val.getField b "status")
      = some s ∧
    (pauseClusterPatch (.vobj fs)).bind (fun b => Val.getField b "status")
      = some s := by
  constructor
  · rw [scaleClusterPatch, setPath2_obj fs sf _ _ _ hspec]
    show lookupField (setField fs "spec" (Val.vobj (setField sf "instances" instances)))
      "status" = some s
    rw [lookupField_setField_ne _ _ _ _ (by decide), hstatus]
  · simp only [pauseClusterPatch, jsGet, hmeta, Option.getD_some, truthy, hann,
      Option.getD_none, Bool.false_eq_true, if_false, jsSetOn]
    show lookupField (setField fs "metadata"
      (Val.vobj (setField (setField mf "annotations" (Val.vobj [])) "annotations"
        (Val.vobj [("cnpg.io/hibernation", Val.vstr "on")])))) "status" = some s
    rw [lookupField_setField_ne _ _ _ _ (by decide), hstatus]

/-- C5 witness: the amended theorem applied to the concrete document. -/
theorem C5_witness :
    (scaleClusterPatch statusCluster (.vnum 5)).bind (fun b => Val.getField b "status")
      = some (.vobj [("phase", .vstr "Cluster in healthy state"),
                     ("readyInstances", .vnum 3)]) ∧
    (pauseClusterPatch statusCluster).bind (fun b => Val.getField b "status")
      = some (.vobj [("phase", .vstr "Cluster in healthy state"),
                     ("readyInstances", .vnum 3)]) :=
  C5_status_roundtripped _ _ _ _ (.vnum 5) rfl rfl rfl rfl

/-- C6: the claim states that for every create-style operation, every
optional argument left unsupplied is entirely missing from the compiled
document, with no null or empty placeholder.  `createPooler` violates it:
with `pgbouncerConfig` unsupplied, `args.pgbouncerConfig || {}` puts an empty
`parameters` map into the document. -/
theorem C6_counterexample :
    pathGet (createPoolerSpec "pool1" "db" "prod" none none none none)
      ["spec", "pgbouncer", "parameters"] = some (.vobj []) := rfl

/-- C6 amended: `createCluster` and `restoreCluster` omit an unsupplied
`storageClass` entirely, but `createPooler` emits
`spec.pgbouncer.parameters = {}` (an empty placeholder) when
`pgbouncerConfig` is unsupplied. -/
theorem C6_optional_field_omission (name namespace_ clusterName backupName : String)
    (instances : Option Int) (storageSize postgresVersion : Option String) :
    pathGet (createClusterSpec name namespace_ instances storageSize postgresVersion none)
      ["spec", "storage", "storageClass"] = none ∧
    pathGet (restoreClusterSpec name namespace_ backupName instances storageSize none)
      ["spec", "storage", "storageClass"] = none ∧
    pathGet (createPoolerSpec name namespace_ clusterName instances none none none)
      ["spec", "pgbouncer", "parameters"] = some (.vobj []) := by
  refine ⟨?_, ?_, ?_⟩ <;>
    simp [createClusterSpec, restoreClusterSpec, createPoolerSpec, pathGet,
      Val.getField, lookupField]

/-- A well-formed argument bag for `scale_cluster`. -/
def scaleArgs : List (String × Val) :=
  [("name", .vstr "prod"), ("namespace", .vstr "db"), ("instances", .vnum 5)]

/-- A fetched cluster document used to drive the dispatcher runs. -/
def scaleFetchedCluster : Val :=
  .vobj [("metadata", .vobj [("name", .vstr "prod")]),
         ("spec", .vobj [("instances", .vnum 3)])]

/-- C1: the claim states that a replace call failing with a Conflict yields
an OperationResult with `ok=false` and an errorKind distinguishable from a
plain TransportError.  The result envelope has no `ok` flag and no error-kind
field at all (`ToolResult` is a bare content list), and the dispatcher folds
every thrown error into the same text template: a Conflict and a
TransportError carrying the same client message produce byte-identical
results. -/
theorem C1_counterexample :
    dispatchScaleCluster (some scaleArgs) (.ok scaleFetchedCluster)
      (.error (.conflict "the object has been modified"))
    = dispatchScaleCluster (some scaleArgs) (.ok scaleFetchedCluster)
      (.error (.transport "the object has been modified")) := rfl

/-- C1 amended: a Conflict on replace is not swallowed and not reported as
success — the operation returns an error envelope whose text embeds the
adapter's message — but the envelope carries no `ok` flag and no errorKind:
a Conflict is indistinguishable from a TransportError with the same message. -/
theorem C1_conflict_embedded_in_text (m : String) (fs sf : List (String × Val))
    (hspec : lookupField fs "spec" = some (.vobj sf)) :
    (dispatchScaleCluster (some scaleArgs) (.ok (.vobj fs)) (.error (.conflict m))).snd
      = ⟨[⟨"text", "Error executing scale_cluster: Failed to scale cluster: " ++ m⟩]⟩ ∧
    dispatchScaleCluster (some scaleArgs) (.ok (.vobj fs)) (.error (.conflict m))
      = dispatchScaleCluster (some scaleArgs) (.ok (.vobj fs)) (.error (.transport m)) := by
  have hp := setPath2_obj fs sf "spec" "instances" (.vnum 5) hspec
  have hstr : "Error executing scale_cluster: " ++ ("Failed to scale cluster: " ++ m)
      = "Error executing scale_cluster: Failed to scale cluster: " ++ m := by
    rw [← String.append_assoc]; rfl
  constructor
  · simp [dispatchScaleCluster, scaleArgs, lookupField, scaleClusterRun,
      scaleClusterPatch, hp, callToolCatch, KubeError.message, hstr]
  · simp [dispatchScaleCluster, scaleArgs, lookupField, scaleClusterRun,
      scaleClusterPatch, hp, callToolCatch, KubeError.message]

/-- C1 witness: the amended theorem applied to the concrete run. -/
theorem C1_witness :
    (dispatchScaleCluster (some scaleArgs)
        (.ok (.vobj [("metadata", .vobj [("name", .vstr "prod")]),
                     ("spec", .vobj [("instances", .vnum 3)])]))
        (.error (.conflict "boom"))).snd
      = ⟨[⟨"text", "Error executing scale_cluster: Failed to scale cluster: " ++ "boom"⟩]⟩ ∧
    dispatchScaleCluster (some scaleArgs)
        (.ok (.vobj [("metadata", .vobj [("name", .vstr "prod")]),
                     ("spec", .vobj [("instances", .vnum 3)])]))
        (.error (.conflict "boom"))
      = dispatchScaleCluster (some scaleArgs)
        (.ok (.vobj [("metadata", .vobj [("name", .vstr "prod")]),
                     ("spec", .vobj [("instances", .vnum 3)])]))
        (.error (.transport "boom")) :=
  C1_conflict_embedded_in_text "boom" _ [("instances", .vnum 3)] rfl

/-- An argument bag with an unknown key and without the required
`instances`. -/
def bogusScaleArgs : List (String × Val) :=
  [("name", .vstr "prod"), ("namespace", .vstr "db"), ("bogus", .vstr "x")]

/-- C2: the claim states that the dispatcher validates the argument bag
against the declared parameter set before any network access — unknown keys
rejected, missing required keys failing before any remote call, zero side
effects on validation failure.  The dispatcher performs no such validation:
with an unknown key present and the required `instances` missing, the
handler still issues the remote get and then a replace whose body carries
`spec.instances = undefined`. -/
theorem C2_counterexample :
    (dispatchScaleCluster (some bogusScaleArgs) (.ok scaleFetchedCluster) (.ok ())).fst
      = [.getObj "clusters" (.vstr "db") (.vstr "prod"),
         .replaceObj "clusters" (.vstr "db") (.vstr "prod")
           (.vobj [("metadata", .vobj [("name", .vstr "prod")]),
                   ("spec", .vobj [("instances", .vundefined)])])] := rfl

/-- C2 amended: the only pre-dispatch check is the presence of the argument
bag — an absent bag fails with `Missing arguments` before any remote call
and with no side effects; once a bag is present, unknown keys are ignored
and missing required keys are not checked, and the remote get is issued
regardless. -/
theorem C2_presence_check_only (x : Val) (fetched : Except KubeError Val)
    (ro : Except KubeError Unit) :
    dispatchScaleCluster none fetched ro
      = ([], ⟨[⟨"text", "Error executing scale_cluster: Missing arguments"⟩]⟩) ∧
    (dispatchScaleCluster (some (("bogus", x) :: [("name", .vstr "prod"),
        ("namespace", .vstr "db")])) fetched ro).fst.head?
      = some (.getObj CLUSTER_PLURAL (.vstr "db") (.vstr "prod")) := by
  constructor
  · rfl
  · cases fetched with
    | error e => rfl
    | ok cluster =>
        simp only [dispatchScaleCluster, lookupField, scaleClusterRun]
        cases hpatch : scaleClusterPatch cluster Val.vundefined with
        | none => simp [hpatch]
        | some body => cases ro <;> simp [hpatch]

/-- C7: scale_cluster against a fetched document whose `spec.instances` is 3
issues exactly one get followed by one replace; the replace body is the
fetched document with `spec` updated in place to carry `instances = 5`, and
every other top-level key is bound exactly as in the fetched document. -/
theorem C7_scale_localized_replace (fs sf : List (String × Val))
    (hspec : lookupField fs "spec" = some (.vobj sf))
    (hinst : lookupField sf "instances" = some (.vnum 3)) :
    (scaleClusterRun (.vstr "prod") (.vstr "db") (.vnum 5) (.ok (.vobj fs)) (.ok ())).fst
      = [.getObj CLUSTER_PLURAL (.vstr "db") (.vstr "prod"),
         .replaceObj CLUSTER_PLURAL (.vstr "db") (.vstr "prod")
           (.vobj (setField fs "spec" (.vobj (setField sf "instances" (.vnum 5)))))] ∧
    pathGet (.vobj (setField fs "spec" (.vobj (setField sf "instances" (.vnum 5)))))
      ["spec", "instances"] = some (.vnum 5) ∧
    (∀ k, k ≠ "spec" →
      Val.getField (.vobj (setField fs "spec"
        (.vobj (setField sf "instances" (.vnum 5))))) k = lookupField fs k) := by
  have hp := setPath2_obj fs sf "spec" "instances" (.vnum 5) hspec
  refine ⟨?_, ?_, ?_⟩
  · simp [scaleClusterRun, scaleClusterPatch, hp]
  · simp [pathGet, Val.getField, lookupField_setField_self]
  · intro k hk
    exact lookupField_setField_ne fs "spec" k _ hk

/-- A fetched cluster document with `spec.instances = 3` plus unrelated
top-level and spec-level keys, for exercising the frame theorems. -/
def framedClusterFields : List (String × Val) :=
  [("apiVersion", .vstr "postgresql.cnpg.io/v1"),
   ("kind", .vstr "Cluster"),
   ("metadata", .vobj [("name", .vstr "prod"), ("namespace", .vstr "db")]),
   ("spec", .vobj [("instances", .vnum 3),
                   ("storage", .vobj [("size", .vstr "10Gi")]),
                   ("futureField", .vstr "kept")]),
   ("status", .vobj [("phase", .vstr "Cluster in healthy state")])]

/-- C7 witness: the theorem applied to the concrete document, sampling the
frame condition at the `status` key. -/
theorem C7_witness :
    (scaleClusterRun (.vstr "prod") (.vstr "db") (.vnum 5)
        (.ok (.vobj framedClusterFields)) (.ok ())).fst
      = [.getObj CLUSTER_PLURAL (.vstr "db") (.vstr "prod"),
         .replaceObj CLUSTER_PLURAL (.vstr "db") (.vstr "prod")
           (.vobj (setField framedClusterFields "spec"
             (.vobj (setField [("instances", .vnum 3),
                               ("storage", .vobj [("size", .vstr "10Gi")]),
                               ("futureField", .vstr "kept")]
               "instances" (.vnum 5)))))] ∧
    Val.getField (.vobj (setField framedClusterFields "spec"
        (.vobj (setField [("instances", .vnum 3),
                          ("storage", .vobj [("size", .vstr "10Gi")]),
                          ("futureField", .vstr "kept")]
          "instances" (.vnum 5))))) "status" = lookupField framedClusterFields "status" :=
  ⟨(C7_scale_localized_replace framedClusterFields _ rfl rfl).1,
   (C7_scale_localized_replace framedClusterFields _ rfl rfl).2.2 "status" (by decide)⟩

/-- Shape check on an optional annotations binding: absent, or bound to an
object (the shapes a really fetched document can carry). -/
def objOrAbsent : Option Val → Bool
  | none => true
  | some (.vobj _) => true
  | some _ => false

/-- C8: pause_cluster (set `cnpg.io/hibernation` to "on", creating the
annotations map when needed) followed immediately by resume_cluster (guarded
delete of the key) leaves `metadata.annotations` an object without the
hibernation key — never with the key still set to "on". -/
theorem C8_pause_then_resume_clears_hib (fs mf : List (String × Val))
    (hmeta : lookupField fs "metadata" = some (.vobj mf))
    (hann : objOrAbsent (lookupField mf "annotations") = true) :
    (pauseThenResume (.vobj fs)).map hibKeyAbsent = some true := by
  cases h : lookupField mf "annotations" with
  | none =>
      simp [pauseThenResume, pauseClusterPatch, resumeClusterPatch, jsGet, jsSetOn,
        jsDeleteOn, truthy, hmeta, h, lookupField_setField_self, hibKeyAbsent,
        pathGet, Val.getField, removeField, lookupField]
  | some v =>
      rw [h] at hann
      cases v with
      | vobj afs =>
          simp [pauseThenResume, pauseClusterPatch, resumeClusterPatch, jsGet, jsSetOn,
            jsDeleteOn, truthy, hmeta, h, lookupField_setField_self,
            lookupField_removeField_self, hibKeyAbsent, pathGet, Val.getField]
      | vundefined => simp [objOrAbsent] at hann
      | vnull => simp [objOrAbsent] at hann
      | vbool b => simp [objOrAbsent] at hann
      | vnum n => simp [objOrAbsent] at hann
      | vstr s => simp [objOrAbsent] at hann
      | varr xs => simp [objOrAbsent] at hann

/-- Metadata fields of the C8 witness document: an annotations map already
holding an unrelated key. -/
def pausedMetaFields : List (String × Val) :=
  [("name", .vstr "prod"), ("namespace", .vstr "db"),
   ("annotations", .vobj [("team", .vstr "db")])]

/-- C8 witness: the theorem applied to the concrete document. -/
theorem C8_witness :
    (pauseThenResume (.vobj [("metadata", .vobj pausedMetaFields),
        ("spec", .vobj [("instances", .vnum 3)])])).map hibKeyAbsent = some true :=
  C8_pause_then_resume_clears_hib _ pausedMetaFields rfl rfl

/-- C9: the array-append strategy is not idempotent — running
manage_tablespaces twice with the same arguments appends the identical
tablespace object twice, with no deduplication: the final array is the
original followed by two equal entries. -/
theorem C9_append_not_idempotent (fs sf : List (String × Val)) (xs : List Val)
    (nV szV scV : Val)
    (hspec : lookupField fs "spec" = some (.vobj sf))
    (hts : lookupField sf "tablespaces" = some (.varr xs) ∨
           (lookupField sf "tablespaces" = none ∧ xs = [])) :
    ((manageTablespacesPatch (.vobj fs) nV szV scV).bind
        (fun d1 => manageTablespacesPatch d1 nV szV scV)).bind
      (fun d2 => pathGet d2 ["spec", "tablespaces"])
      = some (.varr (xs ++ [tablespaceObj nV szV scV, tablespaceObj nV szV scV])) := by
  rcases hts with h | ⟨h, hxs⟩
  · simp [manageTablespacesPatch, jsGetPath, jsGet, jsSetOn, setPath2, truthy,
      hspec, h, lookupField_setField_self, pathGet, Val.getField]
  · subst hxs
    simp [manageTablespacesPatch, jsGetPath, jsGet, jsSetOn, setPath2, truthy,
      hspec, h, lookupField_setField_self, pathGet, Val.getField]

/-- C9 witness: the theorem applied to a concrete document with one existing
tablespace, calling with the same `tablespaceName`/`size` and no
`storageClass`. -/
theorem C9_witness :
    ((manageTablespacesPatch
          (.vobj [("metadata", .vobj [("name", .vstr "prod")]),
                  ("spec", .vobj [("instances", .vnum 3),
                                  ("tablespaces", .varr [tablespaceObj (.vstr "old")
                                    (.vstr "1Gi") (.vstr "fast")])])])
          (.vstr "ts1") (.vstr "5Gi") .vundefined).bind
        (fun d1 => manageTablespacesPatch d1 (.vstr "ts1") (.vstr "5Gi") .vundefined)).bind
      (fun d2 => pathGet d2 ["spec", "tablespaces"])
      = some (.varr [tablespaceObj (.vstr "old") (.vstr "1Gi") (.vstr "fast"),
                     tablespaceObj (.vstr "ts1") (.vstr "5Gi") .vundefined,
                     tablespaceObj (.vstr "ts1") (.vstr "5Gi") .vundefined]) :=
  C9_append_not_idempotent _ _ [tablespaceObj (.vstr "old") (.vstr "1Gi") (.vstr "fast")]
    (.vstr "ts1") (.vstr "5Gi") .vundefined rfl (Or.inl rfl)

/-- C10: patch_cluster_config on a fetched document whose `spec.postgresql`
(or its `parameters`) is absent does not fail: the missing intermediate maps
are created, the supplied parameters are merged in, and every sibling key of
`spec`, of `spec.postgresql` and every other top-level key keeps exactly its
fetched binding. -/
theorem C10_patch_config_creates_and_merges (fs sf pf cfg : List (String × Val))
    (hnodup : (cfg.map Prod.fst).Nodup)
    (hspec : lookupField fs "spec" = some (.vobj sf))
    (hpg : (lookupField sf "postgresql" = some (.vobj pf) ∧
              lookupField pf "parameters" = none)
           ∨ (lookupField sf "postgresql" = none ∧ pf = [])) :
    ((patchClusterConfigPatch (.vobj fs) (some cfg) none).bind
        (fun d => pathGet d ["spec", "postgresql", "parameters"]))
      = some (.vobj (assignFields [] cfg)) ∧
    (∀ k v, lookupField cfg k = some v →
      ((patchClusterConfigPatch (.vobj fs) (some cfg) none).bind
          (fun d => pathGet d ["spec", "postgresql", "parameters", k])) = some v) ∧
    (∀ k, k ≠ "parameters" →
      ((patchClusterConfigPatch (.vobj fs) (some cfg) none).bind
          (fun d => pathGet d ["spec", "postgresql", k])) = lookupField pf k) ∧
    (∀ k, k ≠ "postgresql" →
      ((patchClusterConfigPatch (.vobj fs) (some cfg) none).bind
          (fun d => pathGet d ["spec", k])) = lookupField sf k) ∧
    (∀ k, k ≠ "spec" →
      ((patchClusterConfigPatch (.vobj fs) (some cfg) none).bind
          (fun d => Val.getField d k)) = lookupField fs k) := by
  rcases hpg with ⟨hpg, hpar⟩ | ⟨hpg, hpf⟩
  · have hd : patchClusterConfigPatch (.vobj fs) (some cfg) none
        = some (.vobj (setField fs "spec" (.vobj (setField sf "postgresql"
            (.vobj (setField pf "parameters" (.vobj (assignFields [] cfg)))))))) := by
      simp [patchClusterConfigPatch, jsGetPath, jsGet, jsSetOn, setPath2, setPath3,
        truthy, hspec, hpg, hpar, lookupField_setField_self, setField_setField]
    refine ⟨?_, ?_, ?_, ?_, ?_⟩
    · rw [hd]
      simp [pathGet, Val.getField, lookupField_setField_self]
    · intro k v hk
      rw [hd]
      simp only [Option.some_bind, pathGet, Val.getField, lookupField_setField_self]
      have hs := lookupField_assignFields_of_some cfg [] k v hnodup hk
      simp [hs]
    · intro k hk
      rw [hd]
      simp only [Option.some_bind, pathGet, Val.getField, lookupField_setField_self]
      rw [lookupField_setField_ne _ _ _ _ hk]
      cases hlk : lookupField pf k <;> rfl
    · intro k hk
      rw [hd]
      simp only [Option.some_bind, pathGet, Val.getField, lookupField_setField_self]
      rw [lookupField_setField_ne _ _ _ _ hk]
      cases hlk : lookupField sf k <;> rfl
    · intro k hk
      rw [hd]
      simp only [Option.some_bind, Val.getField]
      rw [lookupField_setField_ne _ _ _ _ hk]
  · subst hpf
    have hd : patchClusterConfigPatch (.vobj fs) (some cfg) none
        = some (.vobj (setField fs "spec" (.vobj (setField sf "postgresql"
            (.vobj [("parameters", .vobj (assignFields [] cfg))]))))) := by
      simp [patchClusterConfigPatch, jsGetPath, jsGet, jsSetOn, setPath2, setPath3,
        truthy, hspec, hpg, lookupField_setField_self, setField_setField, setField,
        lookupField]
    refine ⟨?_, ?_, ?_, ?_, ?_⟩
    · rw [hd]
      simp [pathGet, Val.getField, lookupField_setField_self, lookupField]
    · intro k v hk
      rw [hd]
      simp only [Option.some_bind, pathGet, Val.getField, lookupField_setField_self,
        lookupField, if_true]
      have hs := lookupField_assignFields_of_some cfg [] k v hnodup hk
      simp [hs]
    · intro k hk
      rw [hd]
      simp only [Option.some_bind, pathGet, Val.getField, lookupField_setField_self]
      simp [lookupField, Ne.symm hk]
    · intro k hk
      rw [hd]
      simp only [Option.some_bind, pathGet, Val.getField, lookupField_setField_self]
      rw [lookupField_setField_ne _ _ _ _ hk]
      cases hlk : lookupField sf k <;> rfl
    · intro k hk
      rw [hd]
      simp only [Option.some_bind, Val.getField]
      rw [lookupField_setField_ne _ _ _ _ hk]

/-- Spec fields of the C10 witness document: no `postgresql` block at all,
one sibling key. -/
def bareSpecFields : List (String × Val) :=
  [("instances", .vnum 3), ("storage", .vobj [("size", .vstr "10Gi")])]

/-- C10 witness: the theorem applied to a concrete document without
`spec.postgresql`, patching two parameters, sampling the merged value, a
spec sibling and a top-level sibling. -/
theorem C10_witness :
    ((patchClusterConfigPatch
          (.vobj [("metadata", .vobj [("name", .vstr "prod")]),
                  ("spec", .vobj bareSpecFields)])
          (some [("max_connections", .vstr "200"), ("shared_buffers", .vstr "512MB")])
          none).bind
        (fun d => pathGet d ["spec", "postgresql", "parameters"]))
      = some (.vobj (assignFields []
          [("max_connections", .vstr "200"), ("shared_buffers", .vstr "512MB")])) ∧
    ((patchClusterConfigPatch
          (.vobj [("metadata", .vobj [("name", .vstr "prod")]),
                  ("spec", .vobj bareSpecFields)])
          (some [("max_connections", .vstr "200"), ("shared_buffers", .vstr "512MB")])
          none).bind
        (fun d => pathGet d ["spec", "postgresql", "parameters", "max_connections"]))
      = some (.vstr "200") ∧
    ((patchClusterConfigPatch
          (.vobj [("metadata", .vobj [("name", .vstr "prod")]),
                  ("spec", .vobj bareSpecFields)])
          (some [("max_connections", .vstr "200"), ("shared_buffers", .vstr "512MB")])
          none).bind
        (fun d => pathGet d ["spec", "storage"]))
      = lookupField bareSpecFields "storage" ∧
    ((patchClusterConfigPatch
          (.vobj [("metadata", .vobj [("name", .vstr "prod")]),
                  ("spec", .vobj bareSpecFields)])
          (some [("max_connections", .vstr "200"), ("shared_buffers", .vstr "512MB")])
          none).bind
        (fun d => Val.getField d "metadata"))
      = some (.vobj [("name", .vstr "prod")]) := by
  have h := C10_patch_config_creates_and_merges
    [("metadata", .vobj [("name", .vstr "prod")]), ("spec", .vobj bareSpecFields)]
    bareSpecFields []
    [("max_connections", .vstr "200"), ("shared_buffers", .vstr "512MB")]
    (by simp) rfl (Or.inr ⟨rfl, rfl⟩)
  exact ⟨h.1, h.2.1 "max_connections" (.vstr "200") rfl,
    h.2.2.2.1 "storage" (by decide), h.2.2.2.2 "metadata" (by decide)⟩

end Cnpg
